import Mathlib

/-!
Shallow embedding of the playback/scheduling state machine of
SageQuoteFlow (src/App.tsx, src/types.ts, src/components/SettingsForm.tsx).

The React component App keeps its state in useState hooks (status,
settings, quotes, playbackState, isBuffering) and in mutable refs
(audioSourceRef, intervalTimerRef, nextPlayTimeRef, isPausedRef).  We
embed the whole of it as one record, AppState, and each event handler or
asynchronous continuation as a pure function on AppState.  The
asynchronous playCurrentQuote is split at its await point into
playQuoteBegin (the synchronous prefix), synthSuccess (the continuation
when generateSpeech resolves) and synthFailure (the catch block); the
audio element callback source.onended is the function onEnded; the
setInterval callback armed by scheduleNextPlayback is the function tick.
Wall-clock time (Date.now()) is passed in explicitly as a natural number
of milliseconds.  The single-threaded cooperative model means a snapshot
is any state between two such atomic steps.
-/

namespace SageQuoteFlow

/-- src/types.ts: interface Quote. -/
structure Quote where
  id : String
  text : String
  author : Option String := none
  deriving Repr, DecidableEq

/-- src/types.ts: enum AppStatus. -/
inductive AppStatus where
  | IDLE
  | PLAYING
  | PAUSED
  | ERROR
  deriving Repr, DecidableEq

/-- src/types.ts: interface AppSettings. -/
structure AppSettings where
  quoteCount : Nat
  manualQuotes : List String
  frequencyHours : Nat
  deriving Repr, DecidableEq

/-- src/types.ts: interface PlaybackState.  timeRemainingInInterval is in
seconds; every value the source assigns to it is a non-negative integer. -/
structure PlaybackState where
  currentQuoteIndex : Nat
  isAudioPlaying : Bool
  timeRemainingInInterval : Nat
  totalQuotes : Nat
  lastError : Option String := none
  deriving Repr, DecidableEq

/-- The full component state of App (src/App.tsx lines 10-29): the five
useState hooks plus the four refs.  audioSourceActive models whether
audioSourceRef.current is non-null, intervalTimerActive whether
intervalTimerRef.current is non-null, nextPlayTime is
nextPlayTimeRef.current in milliseconds, isPaused is isPausedRef.current.
audioCtxSuspended tracks the suspend()/resume() calls on the shared
AudioContext. -/
structure AppState where
  status : AppStatus
  settings : AppSettings
  quotes : List Quote
  playbackState : PlaybackState
  isBuffering : Bool
  audioSourceActive : Bool
  intervalTimerActive : Bool
  nextPlayTime : Nat
  isPaused : Bool
  audioCtxSuspended : Bool
  deriving Repr, DecidableEq

/-- The initial values of the hooks and refs (src/App.tsx lines 10-29). -/
def initialState : AppState where
  status := AppStatus.IDLE
  settings := { quoteCount := 1, manualQuotes := [""], frequencyHours := 1 }
  quotes := []
  playbackState :=
    { currentQuoteIndex := 0
      isAudioPlaying := false
      timeRemainingInInterval := 0
      totalQuotes := 0
      lastError := none }
  isBuffering := false
  audioSourceActive := false
  intervalTimerActive := false
  nextPlayTime := 0
  isPaused := false
  audioCtxSuspended := false

/-- JavaScript truthiness of an optional string: undefined and the empty
string are falsy.  Used where the source tests playbackState.lastError. -/
def isTruthy : Option String → Bool
  | none => false
  | some m => m != ""

/-- src/App.tsx lines 33-57, handleStart.  Filters out quotes that are
empty after trimming; a no-op when none remain; otherwise builds the
Quote objects, resets playbackState, enters PLAYING and clears the pause
flag.  (The getAudioContext() call only initializes the audio context and
changes none of the modelled fields.) -/
def handleStart (s : AppState) : AppState :=
  let validQuotes := s.settings.manualQuotes.filter (fun q => q.trim != "")
  if validQuotes.length == 0 then s
  else
    let newQuotes : List Quote :=
      validQuotes.mapIdx (fun i text => { id := "q-" ++ toString i, text := text })
    { s with
      quotes := newQuotes
      playbackState :=
        { currentQuoteIndex := 0
          isAudioPlaying := false
          timeRemainingInInterval := 0
          totalQuotes := newQuotes.length
          lastError := none }
      status := AppStatus.PLAYING
      isPaused := false }

/-- src/App.tsx lines 65-75, stopAll: stops and drops the audio source,
clears the interval timer, clears isBuffering. -/
def stopAll (s : AppState) : AppState :=
  { s with
    audioSourceActive := false
    intervalTimerActive := false
    isBuffering := false }

/-- src/App.tsx lines 59-63, handleReset: stopAll, then status IDLE and an
empty quote list.  Note that it touches neither playbackState (so
lastError survives) nor isPausedRef. -/
def handleReset (s : AppState) : AppState :=
  let s1 := stopAll s
  { s1 with status := AppStatus.IDLE, quotes := [] }

/-- src/App.tsx lines 77-96, handlePauseResume.  Only acts when status is
PLAYING or PAUSED; toggles on isPausedRef.  Pausing suspends the audio
context; resuming resumes it and clears lastError when it is truthy. -/
def handlePauseResume (s : AppState) : AppState :=
  if s.status == AppStatus.PLAYING || s.status == AppStatus.PAUSED then
    if !s.isPaused then
      { s with
        isPaused := true
        status := AppStatus.PAUSED
        audioCtxSuspended := true }
    else
      let s1 := { s with
        isPaused := false
        status := AppStatus.PLAYING
        audioCtxSuspended := false }
      if isTruthy s.playbackState.lastError then
        { s1 with playbackState := { s1.playbackState with lastError := none } }
      else s1
  else s

/-- src/App.tsx lines 100-108: the synchronous prefix of playCurrentQuote,
up to the await of generateSpeech.  Returns unchanged when paused or when
the current index has no quote; otherwise sets isBuffering and clears
lastError (and the synthesis call is now in flight). -/
def playQuoteBegin (s : AppState) : AppState :=
  if s.isPaused then s
  else
    match s.quotes[s.playbackState.currentQuoteIndex]? with
    | none => s
    | some _ =>
      { s with
        isBuffering := true
        playbackState := { s.playbackState with lastError := none } }

/-- The quote whose text an invocation of playCurrentQuote hands to
generateSpeech, if any (src/App.tsx lines 101-111). -/
def launchedQuote (s : AppState) : Option Quote :=
  if s.isPaused then none
  else s.quotes[s.playbackState.currentQuoteIndex]?

/-- src/App.tsx lines 111-134: the continuation of playCurrentQuote when
generateSpeech resolves.  If isPausedRef is set the result is discarded
(only isBuffering is cleared); otherwise a buffer source is created and
started, so the audio source slot is occupied, isAudioPlaying becomes
true and isBuffering false. -/
def synthSuccess (s : AppState) : AppState :=
  if s.isPaused then { s with isBuffering := false }
  else
    { s with
      audioSourceActive := true
      playbackState := { s.playbackState with isAudioPlaying := true }
      isBuffering := false }

/-- src/App.tsx line 141: error.message || "Failed to generate audio".
The argument models error.message (none for undefined); a falsy message
falls back to the generic text. -/
def errToMessage : Option String → String
  | some m => if m == "" then "Failed to generate audio" else m
  | none => "Failed to generate audio"

/-- src/App.tsx lines 136-146: the catch block of playCurrentQuote.
Clears isBuffering, records lastError, sets isPausedRef and forces
status PAUSED. -/
def synthFailure (m : Option String) (s : AppState) : AppState :=
  { s with
    isBuffering := false
    playbackState := { s.playbackState with lastError := some (errToMessage m) }
    isPaused := true
    status := AppStatus.PAUSED }

/-- src/App.tsx lines 170-172: remainingSeconds =
Math.max(0, Math.ceil(remainingMs / 1000)) where remainingMs =
nextPlayTimeRef.current - Date.now().  For an integer a, Math.ceil of
a / 1000 is the floor of (a + 999) / 1000, which is integer division
here. -/
def remainingSecondsOf (nextPlayTime now : Nat) : Nat :=
  (max 0 (((nextPlayTime : Int) - (now : Int) + 999) / 1000)).toNat

/-- src/App.tsx lines 149-187, scheduleNextPlayback (without the tick
closure, which is the separate function tick): computes intervalMs from
frequencyHours, sets the absolute deadline to now + intervalMs, shows
intervalMs / 1000 seconds, clears any previous interval timer and arms a
new one. -/
def scheduleNextPlayback (now : Nat) (s : AppState) : AppState :=
  let intervalMs := s.settings.frequencyHours * 3600 * 1000
  { s with
    nextPlayTime := now + intervalMs
    playbackState :=
      { s.playbackState with timeRemainingInInterval := intervalMs / 1000 }
    intervalTimerActive := true }

/-- src/App.tsx lines 126-130: the source.onended callback.  Clears
isBuffering and isAudioPlaying, then runs scheduleNextPlayback. -/
def onEnded (now : Nat) (s : AppState) : AppState :=
  scheduleNextPlayback now
    { s with
      isBuffering := false
      playbackState := { s.playbackState with isAudioPlaying := false } }

/-- src/App.tsx lines 163-186: one firing of the setInterval callback.
While paused it only pushes the deadline forward by the 1000 ms period.
Otherwise it recomputes remainingSeconds from the deadline and the clock,
writes it to timeRemainingInInterval and, when it is down to zero, clears
the interval timer and advances currentQuoteIndex cyclically. -/
def tick (now : Nat) (s : AppState) : AppState :=
  if s.isPaused then
    { s with nextPlayTime := s.nextPlayTime + 1000 }
  else
    let remainingSeconds := remainingSecondsOf s.nextPlayTime now
    let s1 := { s with
      playbackState :=
        { s.playbackState with timeRemainingInInterval := remainingSeconds } }
    if remainingSeconds ≤ 0 then
      { s1 with
        intervalTimerActive := false
        playbackState :=
          { s1.playbackState with
            currentQuoteIndex :=
              (s1.playbackState.currentQuoteIndex + 1) % s1.playbackState.totalQuotes
            timeRemainingInInterval := 0 } }
    else s1

/-- src/App.tsx lines 191-199: the guard of the playback-trigger effect.
The source tests playbackState.lastError by truthiness. -/
def effectTriggers (s : AppState) : Bool :=
  s.status == AppStatus.PLAYING
    && !s.playbackState.isAudioPlaying
    && s.playbackState.timeRemainingInInterval == 0
    && !s.isBuffering
    && !(isTruthy s.playbackState.lastError)

/-- One opportunity for the playback-trigger effect to run: when its guard
holds it invokes playCurrentQuote (whose synchronous prefix is
playQuoteBegin), otherwise nothing happens. -/
def effectStep (s : AppState) : AppState :=
  if effectTriggers s then playQuoteBegin s else s

/-- The snapshot property of claim C9: not both isBuffering (the flag the
spec calls isSynthesizing) and isAudioPlaying. -/
def exclOK (s : AppState) : Bool :=
  !(s.isBuffering && s.playbackState.isAudioPlaying)

/-- The index invariant of claim C3, as an inductive property of the
component state: at IDLE the quote list is empty (handleReset discards
it), and in any running session over a non-empty quote list totalQuotes
mirrors the length of the list and currentQuoteIndex is strictly below
it. -/
def indexInv (s : AppState) : Prop :=
  (s.status = AppStatus.IDLE → s.quotes = []) ∧
  (s.status ≠ AppStatus.IDLE → s.quotes ≠ [] →
    s.playbackState.totalQuotes = s.quotes.length ∧
    s.playbackState.currentQuoteIndex < s.quotes.length)

/-!  Concrete states used by counterexample traces and witnesses. -/

/-- The initial component state with one non-blank quote typed into the
settings form. -/
def oneQuoteSettings : AppState :=
  { initialState with
    settings := { quoteCount := 1, manualQuotes := ["hello"], frequencyHours := 1 } }

/-- The initial component state with a single all-whitespace quote typed
into the settings form. -/
def blankQuoteSettings : AppState :=
  { initialState with
    settings := { quoteCount := 1, manualQuotes := ["  "], frequencyHours := 1 } }

/-- The state handleStart produces from oneQuoteSettings: a PLAYING
session over the single quote, index 0, countdown 0. -/
def startedOneQuote : AppState :=
  { status := AppStatus.PLAYING
    settings := { quoteCount := 1, manualQuotes := ["hello"], frequencyHours := 1 }
    quotes := [{ id := "q-0", text := "hello" }]
    playbackState :=
      { currentQuoteIndex := 0
        isAudioPlaying := false
        timeRemainingInInterval := 0
        totalQuotes := 1
        lastError := none }
    isBuffering := false
    audioSourceActive := false
    intervalTimerActive := false
    nextPlayTime := 0
    isPaused := false
    audioCtxSuspended := false }

/-- A session that was started, began synthesizing its first quote, and was
then paused by the user while the synthesis call is still in flight
(handlePauseResume applied after effectStep). -/
def pausedMidSynthesis : AppState :=
  { status := AppStatus.PAUSED
    settings := { quoteCount := 1, manualQuotes := ["hello"], frequencyHours := 1 }
    quotes := [{ id := "q-0", text := "hello" }]
    playbackState :=
      { currentQuoteIndex := 0
        isAudioPlaying := false
        timeRemainingInInterval := 0
        totalQuotes := 1
        lastError := none }
    isBuffering := true
    audioSourceActive := false
    intervalTimerActive := false
    nextPlayTime := 0
    isPaused := true
    audioCtxSuspended := true }

/-- A session halted by a synthesis failure: PAUSED with a recorded
lastError, nothing buffering or playing, countdown at zero. -/
def errorPausedState : AppState :=
  { status := AppStatus.PAUSED
    settings := { quoteCount := 1, manualQuotes := ["hello"], frequencyHours := 1 }
    quotes := [{ id := "q-0", text := "hello" }]
    playbackState :=
      { currentQuoteIndex := 0
        isAudioPlaying := false
        timeRemainingInInterval := 0
        totalQuotes := 1
        lastError := some "boom" }
    isBuffering := false
    audioSourceActive := false
    intervalTimerActive := false
    nextPlayTime := 0
    isPaused := true
    audioCtxSuspended := false }

/-- A PLAYING session mid-countdown: timer armed, deadline ahead of the
clock, nothing buffering or playing. -/
def playingMidCountdown : AppState :=
  { status := AppStatus.PLAYING
    settings := { quoteCount := 1, manualQuotes := ["hello"], frequencyHours := 1 }
    quotes := [{ id := "q-0", text := "hello" }]
    playbackState :=
      { currentQuoteIndex := 0
        isAudioPlaying := false
        timeRemainingInInterval := 3600
        totalQuotes := 1
        lastError := none }
    isBuffering := false
    audioSourceActive := true
    intervalTimerActive := true
    nextPlayTime := 3600000
    isPaused := false
    audioCtxSuspended := false }

/-!  Theorems for the claims. -/

/-- Evaluating String.trim on the two-space string (it is defined by
well-founded recursion, so we unfold its equations step by step). -/
theorem trim_two_spaces : "  ".trim = "" := by
  rw [String.trim, show "  ".toSubstring = ⟨"  ", ⟨0⟩, ⟨2⟩⟩ from rfl, Substring.trim,
      Substring.takeWhileAux, dif_pos (by decide), if_pos (by decide),
      show ("  ".next ⟨0⟩) = ⟨1⟩ from rfl,
      Substring.takeWhileAux, dif_pos (by decide), if_pos (by decide),
      show ("  ".next ⟨1⟩) = ⟨2⟩ from rfl,
      Substring.takeWhileAux, dif_neg (by decide),
      Substring.takeRightWhileAux, dif_neg (by decide)]
  rfl

/-- Evaluating String.trim on "hello". -/
theorem trim_hello : "hello".trim = "hello" := by
  rw [String.trim, show "hello".toSubstring = ⟨"hello", ⟨0⟩, ⟨5⟩⟩ from rfl, Substring.trim,
      Substring.takeWhileAux, dif_pos (by decide), if_neg (by decide),
      Substring.takeRightWhileAux, dif_pos (by decide)]
  rfl

/-- handleStart on the one-quote settings evaluates to startedOneQuote. -/
theorem handleStart_oneQuote : handleStart oneQuoteSettings = startedOneQuote := by
  have hf : (["hello"] : List String).filter (fun q => q.trim != "") = ["hello"] := by
    rw [List.filter, trim_hello]
    rfl
  simp only [handleStart, oneQuoteSettings, initialState]
  rw [hf]
  rfl


/-- Claim C10: calling togglePauseResume (handlePauseResume) while the
status is IDLE is a no-op: the whole component state, including the pause
flag and the audio-context suspension, is unchanged. -/
theorem pauseResume_noop_when_idle (s : AppState)
    (h : s.status = AppStatus.IDLE) :
    handlePauseResume s = s := by
  simp [handlePauseResume, h]

theorem pauseResume_noop_when_idle_witness :
    handlePauseResume initialState = initialState :=
  pauseResume_noop_when_idle initialState rfl

/-- Claim C8: when every configured quote string is empty or whitespace
after trimming, handleStart changes nothing: the status stays IDLE, no
session is created, and no state field changes. -/
theorem start_noop_on_all_blank_quotes (s : AppState)
    (h : ∀ q ∈ s.settings.manualQuotes, q.trim = "") :
    handleStart s = s := by
  have hf : s.settings.manualQuotes.filter (fun q => q.trim != "") = [] := by
    refine List.filter_eq_nil_iff.mpr ?_
    intro a ha
    simp [h a ha]
  simp [handleStart, hf]

theorem start_noop_on_all_blank_quotes_witness :
    handleStart blankQuoteSettings = blankQuoteSettings :=
  start_noop_on_all_blank_quotes blankQuoteSettings (by
    intro q hq
    simp only [blankQuoteSettings, initialState, List.mem_singleton] at hq
    rw [hq]
    exact trim_two_spaces)

/-- Claim C6: when the synthesis call fails, the catch block clears
isBuffering, records the failure message (falling back to a generic text
when the message is absent or empty), sets the pause flag and forces
status PAUSED, leaving currentQuoteIndex unchanged; the playback-trigger
effect does not fire on the resulting state, so no automatic retry ever
happens. -/
theorem synthesis_failure_pauses_and_records_error (s : AppState)
    (m : Option String) :
    (synthFailure m s).status = AppStatus.PAUSED ∧
    (synthFailure m s).isPaused = true ∧
    (synthFailure m s).isBuffering = false ∧
    (synthFailure m s).playbackState.lastError = some (errToMessage m) ∧
    errToMessage m ≠ "" ∧
    (synthFailure m s).playbackState.currentQuoteIndex
      = s.playbackState.currentQuoteIndex ∧
    effectTriggers (synthFailure m s) = false ∧
    effectStep (synthFailure m s) = synthFailure m s := by
  refine ⟨rfl, rfl, rfl, rfl, ?_, rfl, ?_, ?_⟩
  · rcases m with _ | msg
    · simp [errToMessage]
    · simp only [errToMessage]
      split
      · simp
      · simp_all
  · simp [effectTriggers, synthFailure]
  · simp [effectStep, effectTriggers, synthFailure]

/-- Claim C5: while paused, a timer tick only pushes the absolute deadline
forward by one 1000 ms tick period; timeRemainingInInterval is untouched,
so sampling it at two different times during one pause yields the same
value. -/
theorem paused_tick_freezes_countdown (s : AppState) (now now2 : Nat)
    (_hmode : s.status = AppStatus.PAUSED) (h : s.isPaused = true) :
    tick now s = { s with nextPlayTime := s.nextPlayTime + 1000 } ∧
    (tick now s).playbackState.timeRemainingInInterval
      = s.playbackState.timeRemainingInInterval ∧
    (tick now2 (tick now s)).playbackState.timeRemainingInInterval
      = s.playbackState.timeRemainingInInterval := by
  refine ⟨by simp [tick, h], by simp [tick, h], by simp [tick, h]⟩

theorem paused_tick_freezes_countdown_witness :
    tick 400 pausedMidSynthesis
      = { pausedMidSynthesis with
          nextPlayTime := pausedMidSynthesis.nextPlayTime + 1000 } ∧
    (tick 400 pausedMidSynthesis).playbackState.timeRemainingInInterval
      = pausedMidSynthesis.playbackState.timeRemainingInInterval ∧
    (tick 1400 (tick 400 pausedMidSynthesis)).playbackState.timeRemainingInInterval
      = pausedMidSynthesis.playbackState.timeRemainingInInterval :=
  paused_tick_freezes_countdown pausedMidSynthesis 400 1400 rfl rfl

/-- Claim C1 fails on the code: handleReset does not set isPausedRef, so a
synthesize call that is in flight when reset is pressed from a PLAYING
session passes the isPausedRef check when it resolves and goes on to start
audio.  Trace: start a one-quote session, let the playback-trigger effect
begin synthesis, press reset, then let the in-flight call resolve.  The
resulting state is IDLE yet has isAudioPlaying true and an active audio
source, and the onended callback of that orphaned source later re-arms the
interval timer.  Moreover a lastError recorded before reset survives the
reset (handleReset never touches playbackState). -/
theorem reset_inflight_completion_not_ignored :
    (synthSuccess (handleReset (effectStep startedOneQuote))).status
      = AppStatus.IDLE ∧
    (synthSuccess (handleReset (effectStep startedOneQuote))).playbackState.isAudioPlaying
      = true ∧
    (synthSuccess (handleReset (effectStep startedOneQuote))).audioSourceActive
      = true ∧
    (onEnded 5000 (synthSuccess (handleReset (effectStep startedOneQuote)))).intervalTimerActive
      = true ∧
    (handleReset (synthFailure (some "boom") startedOneQuote)).status
      = AppStatus.IDLE ∧
    (handleReset (synthFailure (some "boom") startedOneQuote)).playbackState.lastError
      = some "boom" :=
  ⟨rfl, rfl, rfl, rfl, rfl, rfl⟩

/-- Claim C2: when the session is paused while a synthesize call for the
current quote is in flight, a successful completion is discarded: the only
change is that isBuffering becomes false — no audio starts, no audio
source is taken, no deadline or timer is armed; the playback-trigger
effect stays off while paused, and an explicit resume re-enables it for
the same quote index. -/
theorem pause_discards_inflight_synthesis (s : AppState)
    (hp : s.isPaused = true) (hst : s.status = AppStatus.PAUSED)
    (hap : s.playbackState.isAudioPlaying = false)
    (ht : s.playbackState.timeRemainingInInterval = 0)
    (he : s.playbackState.lastError = none) :
    synthSuccess s = { s with isBuffering := false } ∧
    effectTriggers (synthSuccess s) = false ∧
    effectTriggers (handlePauseResume (synthSuccess s)) = true ∧
    launchedQuote (handlePauseResume (synthSuccess s))
      = s.quotes[s.playbackState.currentQuoteIndex]? := by
  refine ⟨by simp [synthSuccess, hp], ?_, ?_, ?_⟩
  · simp [synthSuccess, effectTriggers, hp, hst]
  · simp [synthSuccess, handlePauseResume, effectTriggers, isTruthy, hp, hst, hap, ht, he]
  · simp [synthSuccess, handlePauseResume, launchedQuote, isTruthy, hp, hst, he]

theorem pause_discards_inflight_synthesis_witness :
    synthSuccess pausedMidSynthesis
      = { pausedMidSynthesis with isBuffering := false } ∧
    effectTriggers (synthSuccess pausedMidSynthesis) = false ∧
    effectTriggers (handlePauseResume (synthSuccess pausedMidSynthesis)) = true ∧
    launchedQuote (handlePauseResume (synthSuccess pausedMidSynthesis))
      = pausedMidSynthesis.quotes[pausedMidSynthesis.playbackState.currentQuoteIndex]? :=
  pause_discards_inflight_synthesis pausedMidSynthesis rfl rfl rfl rfl rfl

/-- Claim C7: resuming from an error pause returns the session to PLAYING,
clears lastError, leaves currentQuoteIndex unchanged, and the
playback-trigger effect then fires and hands exactly the quote at that
unchanged index to synthesis. -/
theorem resume_after_error_retries_same_quote (s : AppState) (e : String)
    (hst : s.status = AppStatus.PAUSED) (hp : s.isPaused = true)
    (he : s.playbackState.lastError = some e) (hne : e ≠ "")
    (hap : s.playbackState.isAudioPlaying = false)
    (ht : s.playbackState.timeRemainingInInterval = 0)
    (hb : s.isBuffering = false) :
    (handlePauseResume s).status = AppStatus.PLAYING ∧
    (handlePauseResume s).playbackState.lastError = none ∧
    (handlePauseResume s).playbackState.currentQuoteIndex
      = s.playbackState.currentQuoteIndex ∧
    effectTriggers (handlePauseResume s) = true ∧
    launchedQuote (handlePauseResume s)
      = s.quotes[s.playbackState.currentQuoteIndex]? := by
  simp [handlePauseResume, effectTriggers, launchedQuote, isTruthy,
        hst, hp, he, hne, hap, ht, hb]

theorem resume_after_error_retries_same_quote_witness :
    (handlePauseResume errorPausedState).status = AppStatus.PLAYING ∧
    (handlePauseResume errorPausedState).playbackState.lastError = none ∧
    (handlePauseResume errorPausedState).playbackState.currentQuoteIndex
      = errorPausedState.playbackState.currentQuoteIndex ∧
    effectTriggers (handlePauseResume errorPausedState) = true ∧
    launchedQuote (handlePauseResume errorPausedState)
      = errorPausedState.quotes[errorPausedState.playbackState.currentQuoteIndex]? :=
  resume_after_error_retries_same_quote errorPausedState "boom"
    rfl rfl rfl (by decide) rfl rfl rfl

/-- Claim C4: while not paused, a timer tick writes to
timeRemainingInInterval exactly the value recomputed from the stored
absolute deadline and the current clock reading — the integer form of
max(0, ceil((nextPlayTime - now) / 1000)) — and the result of the tick
does not depend on the previously displayed value at all. -/
theorem tick_recomputes_remaining_from_deadline (s : AppState) (now v : Nat)
    (_hmode : s.status = AppStatus.PLAYING) (hp : s.isPaused = false) :
    (tick now s).playbackState.timeRemainingInInterval
      = remainingSecondsOf s.nextPlayTime now ∧
    tick now
        { s with playbackState :=
            { s.playbackState with timeRemainingInInterval := v } }
      = tick now s := by
  obtain ⟨st, se, q, ⟨ci, ap, tr, tq, le⟩, ib, asa, ita, npt, ip, acs⟩ := s
  simp only at hp
  subst hp
  constructor
  · simp only [tick, Bool.false_eq_true, if_false]
    split
    · rename_i hle
      simp only [Nat.le_zero] at hle
      simp [hle]
    · rfl
  · simp only [tick]
    rfl

theorem tick_recomputes_remaining_from_deadline_witness :
    (tick 1000 playingMidCountdown).playbackState.timeRemainingInInterval
      = remainingSecondsOf playingMidCountdown.nextPlayTime 1000 ∧
    tick 1000
        { playingMidCountdown with playbackState :=
            { playingMidCountdown.playbackState with timeRemainingInInterval := 7 } }
      = tick 1000 playingMidCountdown :=
  tick_recomputes_remaining_from_deadline playingMidCountdown 1000 7 rfl rfl

/-- Claim C9: at most one of isBuffering and isAudioPlaying is true at any
snapshot.  The property holds initially and is preserved by every atomic
step of the component — in particular synthSuccess, which starts audio,
clears isBuffering in the same step, so a snapshot taken after playback
has started shows isBuffering false. -/
theorem synthesizing_audio_mutually_exclusive (s : AppState) (now : Nat)
    (m : Option String) (h : exclOK s = true) :
    exclOK initialState = true ∧
    exclOK (handleStart s) = true ∧
    exclOK (stopAll s) = true ∧
    exclOK (handleReset s) = true ∧
    exclOK (handlePauseResume s) = true ∧
    exclOK (effectStep s) = true ∧
    exclOK (synthSuccess s) = true ∧
    exclOK (synthFailure m s) = true ∧
    exclOK (onEnded now s) = true ∧
    exclOK (tick now s) = true := by
  refine ⟨rfl, ?_, ?_, ?_, ?_, ?_, ?_, ?_, ?_, ?_⟩
  · simp only [handleStart]
    split
    · exact h
    · simp [exclOK]
  · simp [exclOK, stopAll]
  · simp [exclOK, handleReset, stopAll]
  · unfold handlePauseResume
    split
    · split
      · exact h
      · split
        · exact h
        · exact h
    · exact h
  · unfold effectStep
    split
    · rename_i hg
      unfold playQuoteBegin
      split
      · exact h
      · split
        · exact h
        · simp only [effectTriggers, Bool.and_eq_true, Bool.not_eq_eq_eq_not,
            Bool.not_true] at hg
          simp [exclOK, hg.1.1.1.2]
    · exact h
  · unfold synthSuccess
    split
    · simp [exclOK]
    · simp [exclOK]
  · simp [exclOK, synthFailure]
  · simp [exclOK, onEnded, scheduleNextPlayback]
  · simp only [tick]
    split
    · exact h
    · split
      · exact h
      · exact h

theorem synthesizing_audio_mutually_exclusive_witness :
    exclOK initialState = true ∧
    exclOK (handleStart startedOneQuote) = true ∧
    exclOK (stopAll startedOneQuote) = true ∧
    exclOK (handleReset startedOneQuote) = true ∧
    exclOK (handlePauseResume startedOneQuote) = true ∧
    exclOK (effectStep startedOneQuote) = true ∧
    exclOK (synthSuccess startedOneQuote) = true ∧
    exclOK (synthFailure (some "boom") startedOneQuote) = true ∧
    exclOK (onEnded 5000 startedOneQuote) = true ∧
    exclOK (tick 5000 startedOneQuote) = true :=
  synthesizing_audio_mutually_exclusive startedOneQuote 5000 (some "boom") rfl

theorem indexInv_handleStart (s : AppState) (h : indexInv s) :
    indexInv (handleStart s) := by
  simp only [handleStart]
  split
  · exact h
  · rename_i hlen
    constructor
    · intro hst
      exact absurd hst (by simp)
    · intro _ _
      refine ⟨rfl, ?_⟩
      simp only [List.length_mapIdx]
      simp only [beq_iff_eq] at hlen
      omega

theorem indexInv_handleReset (s : AppState) :
    indexInv (handleReset s) :=
  ⟨fun _ => rfl, fun hst _ => absurd rfl hst⟩

theorem indexInv_handlePauseResume (s : AppState) (h : indexInv s) :
    indexInv (handlePauseResume s) := by
  obtain ⟨h1, h2⟩ := h
  unfold handlePauseResume
  split
  · rename_i hc
    have hne : s.status ≠ AppStatus.IDLE := by
      simp only [Bool.or_eq_true, beq_iff_eq] at hc
      rcases hc with hc | hc <;> simp [hc]
    split
    · exact ⟨fun hst => absurd hst (by simp), fun _ hq => h2 hne hq⟩
    · split
      · exact ⟨fun hst => absurd hst (by simp), fun _ hq => h2 hne hq⟩
      · exact ⟨fun hst => absurd hst (by simp), fun _ hq => h2 hne hq⟩
  · exact ⟨h1, h2⟩

theorem indexInv_effectStep (s : AppState) (h : indexInv s) :
    indexInv (effectStep s) := by
  unfold effectStep playQuoteBegin
  split
  · split
    · exact h
    · split
      · exact h
      · exact ⟨h.1, h.2⟩
  · exact h

theorem indexInv_synthSuccess (s : AppState) (h : indexInv s) :
    indexInv (synthSuccess s) := by
  unfold synthSuccess
  split
  · exact ⟨h.1, h.2⟩
  · exact ⟨h.1, h.2⟩

theorem indexInv_synthFailure (s : AppState) (m : Option String)
    (h : indexInv s) : indexInv (synthFailure m s) := by
  obtain ⟨h1, h2⟩ := h
  constructor
  · intro hst
    exact absurd hst (by simp [synthFailure])
  · intro _ hq
    by_cases hIdle : s.status = AppStatus.IDLE
    · exact absurd (h1 hIdle) hq
    · exact h2 hIdle hq

theorem indexInv_onEnded (s : AppState) (now : Nat) (h : indexInv s) :
    indexInv (onEnded now s) :=
  ⟨h.1, h.2⟩

theorem indexInv_tick (s : AppState) (now : Nat) (h : indexInv s) :
    indexInv (tick now s) := by
  obtain ⟨h1, h2⟩ := h
  simp only [tick]
  split
  · exact ⟨h1, h2⟩
  · split
    · constructor
      · exact h1
      · intro hst hq
        obtain ⟨ht, _⟩ := h2 hst hq
        refine ⟨ht, ?_⟩
        have hpos : 0 < s.quotes.length := List.length_pos.mpr hq
        simp only
        rw [ht]
        exact Nat.mod_lt _ hpos
    · exact ⟨h1, h2⟩

/-- Claim C3: handleStart initializes currentQuoteIndex to 0 over a
non-empty quote list; the invariant 0 ≤ currentQuoteIndex < length of the
quote list (with totalQuotes mirroring that length) holds at every
snapshot of a running session, being preserved by every atomic step; and
when the countdown reaches 0 the tick advances the index to
(currentQuoteIndex + 1) % totalQuotes, so from the last quote it wraps to
0. -/
theorem currentIndex_invariant_and_cyclic_advance (s : AppState)
    (now : Nat) (m : Option String) (hInv : indexInv s) :
    indexInv initialState ∧
    indexInv (handleStart s) ∧
    indexInv (handleReset s) ∧
    indexInv (handlePauseResume s) ∧
    indexInv (effectStep s) ∧
    indexInv (synthSuccess s) ∧
    indexInv (synthFailure m s) ∧
    indexInv (onEnded now s) ∧
    indexInv (tick now s) ∧
    ((s.settings.manualQuotes.filter (fun q => q.trim != "")).length ≠ 0 →
      (handleStart s).playbackState.currentQuoteIndex = 0 ∧
      (handleStart s).status = AppStatus.PLAYING ∧
      (handleStart s).playbackState.totalQuotes = (handleStart s).quotes.length ∧
      0 < (handleStart s).quotes.length) ∧
    (s.isPaused = false → remainingSecondsOf s.nextPlayTime now = 0 →
      (tick now s).playbackState.currentQuoteIndex
        = (s.playbackState.currentQuoteIndex + 1) % s.playbackState.totalQuotes ∧
      (s.playbackState.currentQuoteIndex + 1 = s.playbackState.totalQuotes →
        (tick now s).playbackState.currentQuoteIndex = 0)) := by
  refine ⟨⟨fun _ => rfl, fun hst _ => absurd rfl hst⟩,
    indexInv_handleStart s hInv, indexInv_handleReset s,
    indexInv_handlePauseResume s hInv, indexInv_effectStep s hInv,
    indexInv_synthSuccess s hInv, indexInv_synthFailure s m hInv,
    indexInv_onEnded s now hInv, indexInv_tick s now hInv, ?_, ?_⟩
  · intro hlen
    simp only [handleStart]
    split
    · rename_i hz
      simp only [beq_iff_eq] at hz
      exact absurd hz hlen
    · refine ⟨rfl, rfl, rfl, ?_⟩
      simp only [List.length_mapIdx]
      omega
  · intro hp h0
    have hadv : (tick now s).playbackState.currentQuoteIndex
        = (s.playbackState.currentQuoteIndex + 1) % s.playbackState.totalQuotes := by
      simp [tick, hp, h0]
    refine ⟨hadv, fun hlast => ?_⟩
    rw [hadv, hlast, Nat.mod_self]

theorem currentIndex_invariant_and_cyclic_advance_witness :
    indexInv initialState ∧
    indexInv (handleStart startedOneQuote) ∧
    indexInv (handleReset startedOneQuote) ∧
    indexInv (handlePauseResume startedOneQuote) ∧
    indexInv (effectStep startedOneQuote) ∧
    indexInv (synthSuccess startedOneQuote) ∧
    indexInv (synthFailure (some "boom") startedOneQuote) ∧
    indexInv (onEnded 5000 startedOneQuote) ∧
    indexInv (tick 5000 startedOneQuote) ∧
    ((startedOneQuote.settings.manualQuotes.filter (fun q => q.trim != "")).length ≠ 0 →
      (handleStart startedOneQuote).playbackState.currentQuoteIndex = 0 ∧
      (handleStart startedOneQuote).status = AppStatus.PLAYING ∧
      (handleStart startedOneQuote).playbackState.totalQuotes
        = (handleStart startedOneQuote).quotes.length ∧
      0 < (handleStart startedOneQuote).quotes.length) ∧
    (startedOneQuote.isPaused = false →
      remainingSecondsOf startedOneQuote.nextPlayTime 5000 = 0 →
      (tick 5000 startedOneQuote).playbackState.currentQuoteIndex
        = (startedOneQuote.playbackState.currentQuoteIndex + 1)
            % startedOneQuote.playbackState.totalQuotes ∧
      (startedOneQuote.playbackState.currentQuoteIndex + 1
          = startedOneQuote.playbackState.totalQuotes →
        (tick 5000 startedOneQuote).playbackState.currentQuoteIndex = 0)) :=
  currentIndex_invariant_and_cyclic_advance startedOneQuote 5000 (some "boom")
    (by constructor
        · intro hst
          exact absurd hst (by simp [startedOneQuote])
        · intro _ _
          exact ⟨rfl, by decide⟩)

end SageQuoteFlow
